import Mathlib

/-!
Verification development for the `mkvdolby` HDR-to-Dolby-Vision conversion tool
(source files `src/mkvdolby/src/mkvdolby/{metadata,conversion,verify,cli}.py`).

The Python code is shallowly embedded:
* strings are `List Char` (`Str`), and Python regular-expression searches are
  embedded as bespoke matchers for the exact patterns the source uses;
* Python floats are modelled as rationals (`ℚ`); the numeric strings the code
  parses are plain decimal literals, so no binary-rounding behaviour is relied
  on by any statement below;
* the outcomes of external processes (mediainfo, ffprobe, ffmpeg, dovi_tool,
  hdr10plus_tool, mkvmerge, the measurements verifier, the analyzer) and of
  filesystem lookups are fields of a `World` record; each embedded function
  also returns the list of external tool invocations it performs (`ToolOp`),
  mirroring the in-memory mediainfo JSON cache (`MI_JSON_CACHE`), which stores
  a result only when the probe call succeeds;
* Python exceptions that the source lets escape are modelled with
  `Except PyExc`; exceptions the source catches are absorbed exactly where the
  corresponding `try`/`except` sits.
-/

abbrev Str := List Char

/-- Shorthand: the character data of a string literal. -/
def str (s : String) : Str := s.data

/-- Python exceptions that can escape the embedded fragments. -/
inductive PyExc where
  | fileNotFoundError
  | valueError
deriving DecidableEq, Repr

/-- `HdrFormat` enum from `metadata.py` lines 14-20. -/
inductive HdrFormat where
  | HDR10_PLUS
  | HDR10_WITH_MEASUREMENTS
  | HDR10_UNSUPPORTED
  | HLG
  | UNSUPPORTED
deriving DecidableEq, Repr

/-- External tool invocations (one constructor per spawned process kind). -/
inductive ToolOp where
  | miInform          -- mediainfo --Inform on the input file
  | miJsonInput       -- mediainfo --Output=JSON on the input file
  | miJsonPq          -- mediainfo --Output=JSON on the HLG→PQ re-encode
  | miJsonDv          -- mediainfo --Output=JSON on the DV output file
  | ffprobeTrc        -- ffprobe color_transfer query
  | ffmpegHevcExtract -- ffmpeg HEVC stream extraction (HDR10+ path)
  | hdr10plusExtract  -- hdr10plus_tool extract
  | analyzerRun       -- hdr_analyzer_mvp measurements generation
  | ffmpegHlg2pq      -- ffmpeg HLG→PQ re-encode
  | doviGenerate      -- dovi_tool generate
  | ffmpegBlExtract   -- ffmpeg BL extraction
  | doviInject        -- dovi_tool inject-rpu
  | mkvmergeMux       -- mkvmerge mux
  | runVerifier       -- measurements verifier
  | doviExtractRpu    -- dovi_tool extract-rpu (verification)
  | doviInfoRpu       -- dovi_tool info --summary (verification)
deriving DecidableEq, Repr

/-! ## String primitives: Python `str.strip`, `in`, `.upper()`, `.lower()` -/

/-- Python whitespace for `strip`/`\s` (ASCII; exotic unicode spaces are not
modelled, no input in any statement below contains them). -/
def pySpace (c : Char) : Bool := c.isWhitespace

/-- Python `str.strip()`. -/
def pyStrip (s : Str) : Str :=
  ((s.dropWhile pySpace).reverse.dropWhile pySpace).reverse

/-- Does `s` start with `needle` (case-sensitive)? -/
def startsWithCS : Str → Str → Bool
  | [], _ => true
  | _ :: _, [] => false
  | a :: p, b :: s => a = b && startsWithCS p s

/-- Python substring test `needle in hay`. -/
def pyIn (needle : Str) : Str → Bool
  | [] => startsWithCS needle []
  | s@(_ :: t) => startsWithCS needle s || pyIn needle t

/-- `needle` occurs as a contiguous substring of `s`. -/
def occursIn (m s : Str) : Prop := ∃ a b, s = a ++ m ++ b

/-- Python `str.upper()` (ASCII). -/
def upperStr (s : Str) : Str := s.map Char.toUpper

/-- Python `str.lower()` (ASCII). -/
def lowerStr (s : Str) : Str := s.map Char.toLower

/-- Case-insensitive prefix test (for the `re.search("^literal", …, IGNORECASE)`
pattern in `parse_madvr_details_static_values`). -/
def ciStartsWith : Str → Str → Bool
  | [], _ => true
  | _ :: _, [] => false
  | a :: p, b :: s => a.toLower = b.toLower && ciStartsWith p s

/-- Split a text into its lines (Python `readlines` / iteration over lines;
line terminators are subsequently removed by `strip`, so splitting on `'\n'`
is equivalent; a trailing newline yields one extra empty line, which matches
none of the line patterns). -/
def splitLines : Str → List Str
  | [] => [[]]
  | c :: t =>
    let r := splitLines t
    if c = '\n' then [] :: r
    else
      match r with
      | [] => [[c]]
      | l :: ls => (c :: l) :: ls

/-! ## Number parsing -/

/-- Digit-string to natural number. -/
def natOfDigits (s : Str) : ℕ :=
  s.foldl (fun acc c => 10 * acc + (c.toNat - '0'.toNat)) 0

/-- Value of a fractional digit block: `fracVal "25" = 1/4`. -/
def fracVal (s : Str) : ℚ := (natOfDigits s : ℚ) / (10 : ℚ) ^ s.length

/-- Python `float()` on a token consisting of digits and dots (the capture of
the `([0-9.]+)` patterns in `get_static_metadata`): valid iff it has at least
one digit and at most one dot; `none` models the `ValueError` that `float`
raises otherwise (e.g. on `"1.2.3"` or `"."`). -/
def ratOfDotToken (tok : Str) : Option ℚ :=
  if tok.count '.' ≤ 1 ∧ tok.any Char.isDigit then
    let ip := tok.takeWhile Char.isDigit
    let rest := tok.dropWhile Char.isDigit
    match rest with
    | '.' :: fr => some ((natOfDigits ip : ℚ) + fracVal fr)
    | _ => some (natOfDigits ip : ℚ)
  else none

/-- Python `int()` applied to a float: truncation toward zero. -/
def pyInt (q : ℚ) : ℤ := if q < 0 then -(⌊-q⌋) else ⌊q⌋

/-- Python `round()` to an integer: round-half-to-even. -/
def pyRound (q : ℚ) : ℤ :=
  let f := ⌊q⌋
  let r := q - f
  if r < 1/2 then f
  else if 1/2 < r then f + 1
  else if f % 2 = 0 then f else f + 1

/-- Python `float()` on a general string, restricted to the simple decimal
literals the probed fields contain: optional surrounding whitespace, optional
sign, digits with an optional fractional part. (Exponent, `inf`/`nan` and
underscore forms are not modelled; they occur in no statement below.) -/
def pyFloatLit (s : Str) : Option ℚ :=
  let t := pyStrip s
  let (sign, t2) : ℚ × Str :=
    match t with
    | '-' :: r => (-1, r)
    | '+' :: r => (1, r)
    | _ => (1, t)
  let ip := t2.takeWhile Char.isDigit
  let rest := t2.dropWhile Char.isDigit
  match rest with
  | [] => if ip.isEmpty then none else some (sign * (natOfDigits ip : ℚ))
  | '.' :: fr =>
    if fr.all Char.isDigit ∧ (¬ip.isEmpty ∨ ¬fr.isEmpty) then
      some (sign * ((natOfDigits ip : ℚ) + fracVal fr))
    else none
  | _ => none

/-- The matched token of `re.search(r"([0-9]+[.,]?[0-9]*)", s)` used by
`_extract_number`: leftmost digit run, one optional `.`/`,`, further digits. -/
def extractNumToken : Str → Option Str
  | [] => none
  | c :: t =>
    if c.isDigit then
      let ip := c :: t.takeWhile Char.isDigit
      let rest := t.dropWhile Char.isDigit
      match rest with
      | d :: r2 =>
        if d = '.' ∨ d = ',' then some (ip ++ d :: r2.takeWhile Char.isDigit)
        else some ip
      | [] => some ip
    else extractNumToken t

/-- Value of an `extractNumToken` token after `.replace(",", ".")` and
`float()`; such tokens always parse, so this is total. -/
def ratOfNumToken (tok : Str) : ℚ :=
  let ip := tok.takeWhile Char.isDigit
  let rest := tok.dropWhile Char.isDigit
  match rest with
  | _ :: fr => (natOfDigits ip : ℚ) + fracVal fr
  | [] => (natOfDigits ip : ℚ)

/-- `_extract_number` (metadata.py lines 92-100). -/
def pyExtractNumber (s : Str) : Option ℚ :=
  (extractNumToken s).map ratOfNumToken

/-! ## A small matcher for the fixed regular expressions of the source

Each pattern used by the Python code is a sequence of these atoms.  In every
pattern the character set of a greedy piece (`\s+`, `\s*`, `([...]+)`) is
disjoint from the first character the following atom can consume, so greedy
maximal-munch matching is equivalent to the backtracking semantics of `re`. -/

inductive RAtom where
  | lit (pat : Str) (ci : Bool)      -- literal, `ci` = IGNORECASE
  | litOpt (pat : Str) (ci : Bool)   -- optional literal (`s?`)
  | ws0                              -- `\s*`
  | ws1                              -- `\s+`
  | cls (p : Char → Bool)            -- capture group `([p]+)`, greedy
  | eos                              -- `$`

/-- Strip a literal off the front of `s`, case-insensitively when `ci`. -/
def stripLit (p : Str) (ci : Bool) (s : Str) : Option Str :=
  match p, s with
  | [], rest => some rest
  | _ :: _, [] => none
  | a :: p', b :: s' =>
    if (if ci then a.toLower = b.toLower else a = b) then stripLit p' ci s'
    else none

/-- Match a sequence of atoms at the start of `s`; returns the capture groups
(in order). -/
def matchAtoms : List RAtom → Str → Option (List Str)
  | [], _ => some []
  | .lit p ci :: as, s =>
    match stripLit p ci s with
    | some r => matchAtoms as r
    | none => none
  | .litOpt p ci :: as, s =>
    match stripLit p ci s with
    | some r => matchAtoms as r
    | none => matchAtoms as s
  | .ws0 :: as, s => matchAtoms as (s.dropWhile pySpace)
  | .ws1 :: as, s =>
    match s with
    | c :: t => if pySpace c then matchAtoms as (t.dropWhile pySpace) else none
    | [] => none
  | .cls p :: as, s =>
    match s with
    | c :: t =>
      if p c then (matchAtoms as (t.dropWhile p)).map ((c :: t.takeWhile p) :: ·)
      else none
    | [] => none
  | .eos :: as, s => if s.isEmpty then matchAtoms as s else none

/-- `re.search`: leftmost position at which the atoms match. -/
def reSearch (pat : List RAtom) : Str → Option (List Str)
  | [] => matchAtoms pat []
  | c :: t =>
    match matchAtoms pat (c :: t) with
    | some caps => some caps
    | none => reSearch pat t

/-- Character class `[0-9.,]`. -/
def numCC (c : Char) : Bool := c.isDigit || c = '.' || c = ','

/-- Character class `[0-9.]`. -/
def numDots (c : Char) : Bool := c.isDigit || c = '.'

/-! The concrete patterns of `metadata.py` and `verify.py`. -/

/-- `Mastering\s+display\s+luminance:\s*([0-9.,]+)\s*/\s*([0-9.,]+)` (IGNORECASE). -/
def patMasteringLum : List RAtom :=
  [.lit (str "Mastering") true, .ws1, .lit (str "display") true, .ws1,
   .lit (str "luminance:") true, .ws0, .cls numCC, .ws0, .lit (str "/") true,
   .ws0, .cls numCC]

/-- `MaxCLL\s*100%\s*:\s*([0-9.,]+)` (IGNORECASE). -/
def patCll100 : List RAtom :=
  [.lit (str "MaxCLL") true, .ws0, .lit (str "100%") true, .ws0,
   .lit (str ":") true, .ws0, .cls numCC]

/-- `^MaxCLL\s*:\s*([0-9.,]+)$` (IGNORECASE, anchored at both ends). -/
def patCllAfter : List RAtom :=
  [.lit (str "MaxCLL") true, .ws0, .lit (str ":") true, .ws0, .cls numCC, .eos]

/-- `^MaxFALL\s*:\s*([0-9.,]+)` (IGNORECASE, anchored at the start). -/
def patFall : List RAtom :=
  [.lit (str "MaxFALL") true, .ws0, .lit (str ":") true, .ws0, .cls numCC]

/-- `Real\s+display\s+peak\s+nits:\s*([0-9.,]+)` (IGNORECASE). -/
def patPeak : List RAtom :=
  [.lit (str "Real") true, .ws1, .lit (str "display") true, .ws1,
   .lit (str "peak") true, .ws1, .lit (str "nits:") true, .ws0, .cls numCC]

/-- `Maximum\s+Target\s+Nits:\s*([0-9.,]+)` (IGNORECASE). -/
def patMaxTarget : List RAtom :=
  [.lit (str "Maximum") true, .ws1, .lit (str "Target") true, .ws1,
   .lit (str "Nits:") true, .ws0, .cls numCC]

/-- `max: ([0-9.]+)` (case-sensitive; probe string form `max: <num>`). -/
def patMaxColon : List RAtom := [.lit (str "max: ") false, .cls numDots]

/-- `min: ([0-9.]+)` (case-sensitive). -/
def patMinColon : List RAtom := [.lit (str "min: ") false, .cls numDots]

/-- `([0-9.]+)` (the bare numeric-run search on MaxCLL / MaxFALL tags). -/
def patNumRun : List RAtom := [.cls numDots]

/-- `^Frame count:\s*(\d+)` (IGNORECASE, anchored at the start). -/
def patFrameCount : List RAtom :=
  [.lit (str "Frame count:") true, .ws0, .cls Char.isDigit]

/-- `^Frames?:\s*(\d+)$` (IGNORECASE, anchored at both ends). -/
def patRpuFrames : List RAtom :=
  [.lit (str "Frame") true, .litOpt (str "s") true, .lit (str ":") true,
   .ws0, .cls Char.isDigit, .eos]

/-! ## Data model: probe results and the external world -/

/-- A mediainfo JSON video track, as an insertion-ordered list of
string-valued fields (the only values the embedded code inspects are
strings; non-string values are skipped by the scan in
`infer_hdr_from_mi_json` and never occur in the fields read elsewhere). -/
structure VideoTrack where
  fields : List (Str × Str)
deriving DecidableEq, Repr

/-- Python `video_track.get(key)`. -/
def lookupField (tr : VideoTrack) (k : Str) : Option Str :=
  (tr.fields.find? (fun p => p.1 = k)).map (·.2)

/-- Outcome of the `mediainfo --Inform` invocation at the top of
`check_hdr_format`: normal output, a `CalledProcessError` (caught at
metadata.py line 407), or a `FileNotFoundError` (the binary is absent from
PATH — not caught by the `except subprocess.CalledProcessError` clause). -/
inductive InformResult where
  | ok (raw : Str)
  | calledProcessError
  | fileNotFound
deriving DecidableEq, Repr

/-- Result of `extract_hdr10plus_metadata` (conversion.py lines 159-205). -/
inductive ExtractOutcome where
  | metadataFile      -- a non-empty metadata JSON was produced
  | noDynamicMetadata -- the "NO_DYNAMIC_METADATA" sentinel string
  | failed            -- None
deriving DecidableEq, Repr

/-- Which file serves as the base-layer source (conversion.py `bl_source_file`). -/
inductive BlSrc where
  | input
  | pq
deriving DecidableEq, Repr

/-- Deterministic outcomes of every external interaction one `convert_file`
call can perform.  `Option (Option VideoTrack)` fields: `none` = the probe
call failed (the catch-all in `get_mediainfo_json_cached` returns `None`),
`some none` = JSON obtained but no video track, `some (some tr)` = video
track `tr`. -/
structure World where
  -- conversion.py line 252: does `<stem>.DV.mkv` already exist?
  outputExists : Bool := false
  -- metadata.py line 342: `mediainfo --Inform` on the input
  inform : InformResult := .calledProcessError
  -- metadata.py `find_measurements_file` (pure filesystem lookup)
  hasMeasurements : Bool := false
  -- `get_mediainfo_json_cached(input_file)`
  miJson : Option (Option VideoTrack) := none
  -- metadata.py line 320: `shutil.which("ffprobe")`
  ffprobeAvailable : Bool := false
  -- ffprobe stdout (`none` = CalledProcessError, caught)
  ffprobeRun : Option Str := none
  -- `find_details_file` and the text of the details file when found
  detailsFound : Bool := false
  detailsText : Str := []
  -- extract_hdr10plus_metadata outcomes
  ffmpegHevcOk : Bool := true
  hdr10plusRunOk : Bool := true
  hdr10plusFileNonempty : Bool := true
  hdr10plusLogExists : Bool := false
  hdr10plusLogSaysNoDyn : Bool := false  -- log has the no-dynamic-metadata marker
  -- run_hdr_analyzer
  analyzerFound : Bool := true
  analyzerRunOk : Bool := true
  analyzerOutExists : Bool := true
  -- convert_hlg_to_pq
  hlg2pqRunOk : Bool := true
  hlg2pqOutExists : Bool := true
  pqMiJson : Option (Option VideoTrack) := none
  -- CLI configuration (already parsed by cli.py; defaults as in cli.py)
  argTrimTargets : List ℤ := [100, 600, 1000]
  argTrimFromDetails : Bool := true
  argBoostExperimental : Bool := false
  argVerify : Bool := false
  argKeepSource : Bool := false
  -- tail steps of convert_file
  extraJsonWriteOk : Bool := true
  doviGenerateOk : Bool := true
  ffmpegBlOk : Bool := true
  doviInjectOk : Bool := true
  mkvmergeOk : Bool := true
  mergedOutputExists : Bool := true
  -- post-mux verification
  measIsFile : Bool := true  -- os.path.isfile(measurements_file)
  verifierRunOk : Bool := true
  verifierLogText : Str := []
  doviExtractRpuOk : Bool := true
  doviInfoOk : Bool := true
  doviInfoText : Str := []
  dvMiJson : Option (Option VideoTrack) := none

/-- The `MI_JSON_CACHE` state relevant to one `convert_file` call: whether a
successful JSON probe of the input (resp. of the HLG→PQ re-encode) has been
stored.  A failed probe is not cached (`get_mediainfo_json_cached` returns
`None` without writing the cache). -/
structure CacheSt where
  inputCached : Bool
  pqCached : Bool
deriving DecidableEq, Repr

/-- Cache state at the start of processing a fresh file. -/
def cache0 : CacheSt := ⟨false, false⟩

/-- `get_mediainfo_json_cached(input_file)`: result, tool ops, new cache. -/
def miJsonInput (w : World) (st : CacheSt) :
    Option (Option VideoTrack) × List ToolOp × CacheSt :=
  if st.inputCached then (w.miJson, [], st)
  else (w.miJson, [ToolOp.miJsonInput], { st with inputCached := (w.miJson).isSome })

/-- `get_mediainfo_json_cached` on the HLG→PQ re-encode. -/
def miJsonPq (w : World) (st : CacheSt) :
    Option (Option VideoTrack) × List ToolOp × CacheSt :=
  if st.pqCached then (w.pqMiJson, [], st)
  else (w.pqMiJson, [ToolOp.miJsonPq], { st with pqCached := (w.pqMiJson).isSome })

/-! ## metadata.py: details-file parsing -/

/-- Loop state of `parse_madvr_details_static_values` (metadata.py 110-115). -/
structure DetScan where
  inAfter : Bool := false
  maxCllAfter : Option ℤ := none
  maxCll100 : Option ℤ := none
  maxFall : Option ℤ := none
  minDml : Option ℚ := none
  maxDml : Option ℚ := none
deriving DecidableEq, Repr

/-- One iteration of the line loop of `parse_madvr_details_static_values`
(metadata.py lines 117-144), mirroring the `continue` structure: a
`MaxCLL 100%` match with the value already set falls through to the
after-clipping and MaxFALL checks. -/
def detStep (st : DetScan) (raw : Str) : DetScan :=
  let line := pyStrip raw
  if ciStartsWith (str "Calculated values after clipping") line then
    { st with inAfter := true }
  else
    match reSearch patMasteringLum line with
    | some (g1 :: g2 :: _) =>
      { st with
        minDml := match pyExtractNumber g1 with | some v => some v | none => st.minDml
        maxDml := match pyExtractNumber g2 with | some v => some v | none => st.maxDml }
    | _ =>
      match reSearch patCll100 line, st.maxCll100 with
      | some (g :: _), none =>
        (match pyExtractNumber g with
         | some n => { st with maxCll100 := some (pyInt n) }
         | none => st)
      | _, _ =>
        if st.inAfter then
          match matchAtoms patCllAfter line with
          | some (g :: _) =>
            (match pyExtractNumber g with
             | some n => { st with maxCllAfter := some (pyInt n) }
             | none => st)
          | _ =>
            match matchAtoms patFall line, st.maxFall with
            | some (g :: _), none =>
              (match pyExtractNumber g with
               | some n => { st with maxFall := some (pyInt n) }
               | none => st)
            | _, _ => st
        else
          match matchAtoms patFall line, st.maxFall with
          | some (g :: _), none =>
            (match pyExtractNumber g with
             | some n => { st with maxFall := some (pyInt n) }
             | none => st)
          | _, _ => st

/-- The per-field dict `metadata` of `get_static_metadata` (and the result
dict of `parse_madvr_details_static_values`): a key is present iff the
corresponding option is `some`. -/
structure PartialMeta where
  max_dml : Option ℤ := none
  min_dml : Option ℚ := none
  max_cll : Option ℤ := none
  max_fall : Option ℤ := none
deriving DecidableEq, Repr

/-- `parse_madvr_details_static_values` (metadata.py lines 103-155).  The
surrounding catch-all `except` only matters for I/O failures, which the
`World` models by `detailsFound = false`. -/
def parse_madvr_details_static_values (text : Str) : PartialMeta :=
  let s := (splitLines text).foldl detStep {}
  { min_dml := s.minDml
    max_dml := s.maxDml.map pyInt
    max_fall := s.maxFall
    max_cll := match s.maxCllAfter with | some v => some v | none => s.maxCll100 }

/-! ## metadata.py: trim-target derivation -/

/-- The candidate list `targets` of `parse_madvr_details_for_trims`
(metadata.py lines 164-179): seed 100, then each extracted value when the
pattern matched, the number was positive before rounding, and the rounded
int is truthy (non-zero). -/
def trimCandidates (text : Str) : List ℤ :=
  let peak : Option ℤ :=
    match reSearch patPeak text with
    | some (g :: _) =>
      (match pyExtractNumber g with
       | some v => if 0 < v then some (pyRound v) else none
       | none => none)
    | _ => none
  let maxT : Option ℤ :=
    match reSearch patMaxTarget text with
    | some (g :: _) =>
      (match pyExtractNumber g with
       | some v => if 0 < v then some (pyRound v) else none
       | none => none)
    | _ => none
  [100]
    ++ (match peak with | some p => if p ≠ 0 then [p] else [] | none => [])
    ++ (match maxT with | some m => if m ≠ 0 then [m] else [] | none => [])

/-- Insert into a strictly-increasing list, dropping duplicates. -/
def insertSortedDedup (x : ℤ) : List ℤ → List ℤ
  | [] => [x]
  | y :: t =>
    if x < y then x :: y :: t
    else if x = y then y :: t
    else y :: insertSortedDedup x t

/-- Python `sorted(set(...))`: ascending and duplicate-free. -/
def sortedDedup (l : List ℤ) : List ℤ := l.foldr insertSortedDedup []

/-- `sorted({t for t in targets if 80 <= t <= 10000})` (metadata.py line 181). -/
def trimSurvivorList (text : Str) : List ℤ :=
  sortedDedup ((trimCandidates text).filter (fun t => 80 ≤ t ∧ t ≤ 10000))

/-- `parse_madvr_details_for_trims` (metadata.py lines 158-186) on the text
of a details file. -/
def parse_madvr_details_for_trims (text : Str) : Option (List ℤ) :=
  let targets := trimSurvivorList text
  if 2 ≤ targets.length then some targets else none

/-! ## metadata.py: static metadata extraction -/

/-- The probe phase of `get_static_metadata` (metadata.py lines 194-211):
read `MasteringDisplay_Luminance`, `MaxCLL`, `MaxFALL` from the video track.
An invalid numeric token makes `float()` raise `ValueError`, which the
`except (SubprocessError, JSONDecodeError, FileNotFoundError)` clause does
not catch — it escapes. -/
def probeMeta : Option (Option VideoTrack) → Except PyExc PartialMeta
  | some (some tr) => do
    let p1 : PartialMeta ← do
      match lookupField tr (str "MasteringDisplay_Luminance") with
      | some mdl =>
        if mdl.isEmpty then pure {}
        else do
          let p ← (match reSearch patMaxColon mdl with
            | some (g :: _) =>
              (match ratOfDotToken g with
               | some q => Except.ok ({ max_dml := some (pyInt q) } : PartialMeta)
               | none => Except.error PyExc.valueError)
            | _ => Except.ok ({} : PartialMeta))
          match reSearch patMinColon mdl with
          | some (g :: _) =>
            (match ratOfDotToken g with
             | some q => Except.ok { p with min_dml := some q }
             | none => Except.error PyExc.valueError)
          | _ => Except.ok p
      | none => pure {}
    let p2 : PartialMeta ← (match reSearch patNumRun ((lookupField tr (str "MaxCLL")).getD (str "0")) with
      | some (g :: _) =>
        (match ratOfDotToken g with
         | some q => Except.ok { p1 with max_cll := some (pyInt q) }
         | none => Except.error PyExc.valueError)
      | _ => Except.ok { p1 with max_cll := some 0 })
    match reSearch patNumRun ((lookupField tr (str "MaxFALL")).getD (str "0")) with
    | some (g :: _) =>
      (match ratOfDotToken g with
       | some q => Except.ok { p2 with max_fall := some (pyInt q) }
       | none => Except.error PyExc.valueError)
    | _ => Except.ok { p2 with max_fall := some 0 }
  | _ => Except.ok {}

/-- `metadata.update(details_values)` guarded by `if details_path:` and
`if details_values:` (metadata.py lines 215-220). -/
def detailsCombine (w : World) (pm : PartialMeta) : PartialMeta :=
  if w.detailsFound then
    let dv := parse_madvr_details_static_values w.detailsText
    if dv = ({} : PartialMeta) then pm
    else
      { max_dml := match dv.max_dml with | some v => some v | none => pm.max_dml
        min_dml := match dv.min_dml with | some v => some v | none => pm.min_dml
        max_cll := match dv.max_cll with | some v => some v | none => pm.max_cll
        max_fall := match dv.max_fall with | some v => some v | none => pm.max_fall }
  else pm

/-- The final `StaticMetadata` record: all four fields always populated. -/
structure StaticMeta where
  max_dml : ℤ
  min_dml : ℚ
  max_cll : ℤ
  max_fall : ℤ
deriving DecidableEq, Repr

/-- The defaulting loop of `get_static_metadata` (metadata.py lines 222-228):
`if metadata.get(key):` is a Python truthiness test, so a collected value of
zero is replaced by the default. -/
def finalizeMeta (pm : PartialMeta) : StaticMeta :=
  { max_dml := match pm.max_dml with | some v => if v ≠ 0 then v else 1000 | none => 1000
    min_dml := match pm.min_dml with | some v => if v ≠ 0 then v else 5 / 1000 | none => 5 / 1000
    max_cll := match pm.max_cll with | some v => if v ≠ 0 then v else 1000 | none => 1000
    max_fall := match pm.max_fall with | some v => if v ≠ 0 then v else 400 | none => 400 }

/-- `get_static_metadata` (metadata.py lines 189-234). -/
def get_static_metadata (w : World) (st : CacheSt) :
    Except PyExc StaticMeta × List ToolOp × CacheSt :=
  let j := miJsonInput w st
  match probeMeta j.1 with
  | .error e => (.error e, j.2.1, j.2.2)
  | .ok pm => (.ok (finalizeMeta (detailsCombine w pm)), j.2.1, j.2.2)

/-! ## metadata.py: frame count and duration helpers -/

/-- The duration/framerate fallback of `get_frame_count_from_mediainfo`
(metadata.py lines 421-427); its catch-all absorbs parse failures. -/
def frameCountFallback (tr : VideoTrack) : Option ℤ :=
  match pyFloatLit ((lookupField tr (str "Duration")).getD (str "0")),
        pyFloatLit ((lookupField tr (str "FrameRate")).getD (str "0")) with
  | some d, some r => if 0 < d ∧ 0 < r then some (pyRound (d / 1000 * r)) else none
  | _, _ => none

/-- `get_frame_count_from_mediainfo` applied to an already-obtained JSON
result (metadata.py lines 412-428). -/
def get_frame_count_of (j : Option (Option VideoTrack)) : Option ℤ :=
  match j with
  | some (some tr) =>
    (match lookupField tr (str "FrameCount") with
     | some fc =>
       if ¬fc.isEmpty ∧ fc.all Char.isDigit then some (natOfDigits fc : ℤ)
       else frameCountFallback tr
     | none => frameCountFallback tr)
  | _ => none

/-- `get_duration_from_mediainfo` applied to an already-obtained JSON result
(metadata.py lines 431-443); the value only feeds the ffmpeg progress
display. -/
def get_duration_of (j : Option (Option VideoTrack)) : Option ℚ :=
  match j with
  | some (some tr) =>
    (match pyFloatLit ((lookupField tr (str "Duration")).getD (str "0")) with
     | some d => if 0 < d then some (d / 1000) else none
     | none => none)
  | _ => none

/-! ## metadata.py: HDR format classification -/

/-- The field scan of `infer_hdr_from_mi_json` (metadata.py lines 305-315):
first field (in insertion order) with a transfer-function hint wins. -/
def scanFields : List (Str × Str) → Option HdrFormat
  | [] => none
  | (_, v) :: rest =>
    let val := upperStr v
    if pyIn (str "ARIB") val && pyIn (str "B67") val then some .HLG
    else if pyIn (str "HLG") val then some .HLG
    else if pyIn (str "SMPTE") val && pyIn (str "2084") val then some .HDR10_UNSUPPORTED
    else scanFields rest

/-- `infer_hdr_from_mi_json` (metadata.py lines 292-316). -/
def infer_hdr_from_mi_json (tr : VideoTrack) : Option HdrFormat :=
  let hdr_fmt := upperStr ((lookupField tr (str "HDR_Format")).getD [])
  let hdr_compat := upperStr ((lookupField tr (str "HDR_Format_Compatibility")).getD [])
  let combined := hdr_fmt ++ [' '] ++ hdr_compat
  if pyIn (str "2094") combined || pyIn (str "HDR10+") combined
      || pyIn (str "HDR10 PLUS") combined then some .HDR10_PLUS
  else if pyIn (str "HLG") combined then some .HLG
  else if pyIn (str "HDR10") combined then some .HDR10_UNSUPPORTED
  else scanFields tr.fields

/-- `ffprobe_color_transfer` (metadata.py lines 318-339): `none` when ffprobe
is unavailable, the invocation fails (`CalledProcessError`, caught) or the
stripped output is empty. -/
def ffprobe_color_transfer (w : World) : Option Str × List ToolOp :=
  if ¬w.ffprobeAvailable then (none, [])
  else
    match w.ffprobeRun with
    | none => (none, [ToolOp.ffprobeTrc])
    | some out =>
      let o := pyStrip out
      (if o.isEmpty then none else some o, [ToolOp.ffprobeTrc])

/-- Fallback tiers 2 and 3 of `check_hdr_format` (metadata.py lines 370-406):
mediainfo-JSON inference, then the ffprobe color-transfer probe, then the
final UNSUPPORTED result. -/
def checkHdrFallback (w : World) (meas : Bool) (ops0 : List ToolOp) (st : CacheSt) :
    Except PyExc HdrFormat × List ToolOp × CacheSt :=
  let j := miJsonInput w st
  let ops1 := ops0 ++ j.2.1
  let st1 := j.2.2
  let inferred : Option HdrFormat :=
    match j.1 with
    | some (some tr) => infer_hdr_from_mi_json tr
    | _ => none
  match inferred with
  | some f =>
    if f = .HDR10_UNSUPPORTED ∧ meas then (.ok .HDR10_WITH_MEASUREMENTS, ops1, st1)
    else (.ok f, ops1, st1)
  | none =>
    let p := ffprobe_color_transfer w
    let ops2 := ops1 ++ p.2
    match p.1 with
    | some t =>
      let trc := lowerStr (pyStrip t)
      if pyIn (str "arib-std-b67") trc || pyIn (str "hlg") trc then (.ok .HLG, ops2, st1)
      else if pyIn (str "smpte2084") trc || pyIn (str "pq") trc then
        (if meas then (.ok .HDR10_WITH_MEASUREMENTS, ops2, st1)
         else (.ok .HDR10_UNSUPPORTED, ops2, st1))
      else (.ok .UNSUPPORTED, ops2, st1)
    | none => (.ok .UNSUPPORTED, ops2, st1)

/-- `check_hdr_format` (metadata.py lines 289-409).  A `CalledProcessError`
from the `mediainfo --Inform` call is caught (line 407) and yields
UNSUPPORTED; a `FileNotFoundError` from the same call is not caught and
escapes. -/
def check_hdr_format (w : World) (st : CacheSt) :
    Except PyExc HdrFormat × List ToolOp × CacheSt :=
  match w.inform with
  | .fileNotFound => (.error .fileNotFoundError, [ToolOp.miInform], st)
  | .calledProcessError => (.ok .UNSUPPORTED, [ToolOp.miInform], st)
  | .ok raw =>
    let fi := pyStrip raw
    let meas := w.hasMeasurements
    if pyIn (str "SMPTE ST 2094 App 4") fi || pyIn (str "HDR10+") fi then
      (.ok .HDR10_PLUS, [ToolOp.miInform], st)
    else if pyIn (str "HLG") fi then (.ok .HLG, [ToolOp.miInform], st)
    else if pyIn (str "HDR10") fi || pyIn (str "PQ") fi || pyIn (str "ST 2084") fi then
      (if meas then (.ok .HDR10_WITH_MEASUREMENTS, [ToolOp.miInform], st)
       else (.ok .HDR10_UNSUPPORTED, [ToolOp.miInform], st))
    else checkHdrFallback w meas [ToolOp.miInform] st

/-! ## verify.py: post-mux verification -/

/-- `_parse_frame_count_from_verifier_log` (verify.py lines 10-19): first
line whose stripped form matches `^Frame count:\s*(\d+)`. -/
def parseVerifierLog (text : Str) : Option ℤ :=
  (splitLines text).foldl
    (fun acc l =>
      match acc with
      | some _ => acc
      | none =>
        match matchAtoms patFrameCount (pyStrip l) with
        | some (g :: _) => some (natOfDigits g : ℤ)
        | _ => none)
    none

/-- The `Frames:` scan over `dovi_tool info` output (verify.py lines 84-92):
every matching line overwrites the value, so the last match wins. -/
def parseRpuFrames (text : Str) : Option ℤ :=
  (splitLines text).foldl
    (fun acc l =>
      match matchAtoms patRpuFrames (pyStrip l) with
      | some (g :: _) => some (natOfDigits g : ℤ)
      | _ => acc)
    none

/-- Steps 2-5 of `verify_post_mux` (verify.py lines 51-119), after the
measurements check produced `measFrames`.  The profile scan and the
Dolby-Vision-tag check only print warnings, so they do not appear in the
result; the second mediainfo JSON call of step 5 spawns a process only when
the first call (step 3) failed and hence was not cached. -/
def verifyTail (w : World) (measFrames : Option ℤ) (ops0 : List ToolOp) :
    Bool × List ToolOp :=
  if ¬w.doviExtractRpuOk then (false, ops0 ++ [ToolOp.doviExtractRpu])
  else if ¬w.doviInfoOk then (false, ops0 ++ [ToolOp.doviExtractRpu, ToolOp.doviInfoRpu])
  else
    let ops1 := ops0 ++ [ToolOp.doviExtractRpu, ToolOp.doviInfoRpu, ToolOp.miJsonDv]
    let dv := get_frame_count_of w.dvMiJson
    let ok1 : Bool :=
      match dv, measFrames with
      | some d, some m => decide (d = m)
      | _, _ => true
    let rpu := parseRpuFrames w.doviInfoText
    let ok2 : Bool :=
      match rpu, dv with
      | some r, some d => if r ≠ d then false else ok1
      | _, _ => ok1
    let ok3 : Bool :=
      match measFrames, rpu with
      | some m, some r => if r ≠ m then false else ok2
      | _, _ => ok2
    let ops2 := ops1 ++ (if (w.dvMiJson).isSome then [] else [ToolOp.miJsonDv])
    (ok3, ops2)

/-- `verify_post_mux` (verify.py lines 22-119).  `measProvided` is whether a
measurements path was passed in; a verifier invocation failure returns
`False` immediately (line 43-45), skipping every later check. -/
def verify_post_mux (w : World) (measProvided : Bool) : Bool × List ToolOp :=
  if measProvided && w.measIsFile then
    (if ¬w.verifierRunOk then (false, [ToolOp.runVerifier])
     else verifyTail w (parseVerifierLog w.verifierLogText) [ToolOp.runVerifier])
  else verifyTail w none []

/-! ## conversion.py: the per-file pipeline -/

/-- `extract_hdr10plus_metadata` (conversion.py lines 159-205).  The
`duration_override` argument evaluates `get_duration_from_mediainfo` before
ffmpeg runs; when `run_command` succeeds but the metadata file is empty, the
code still falls through to the log inspection. -/
def extract_hdr10plus_metadata (w : World) (st : CacheSt) :
    ExtractOutcome × List ToolOp × CacheSt :=
  let j := miJsonInput w st
  if ¬w.ffmpegHevcOk then (.failed, j.2.1 ++ [ToolOp.ffmpegHevcExtract], j.2.2)
  else
    let ops2 := j.2.1 ++ [ToolOp.ffmpegHevcExtract, ToolOp.hdr10plusExtract]
    if w.hdr10plusRunOk && w.hdr10plusFileNonempty then (.metadataFile, ops2, j.2.2)
    else if w.hdr10plusLogExists && w.hdr10plusLogSaysNoDyn then
      (.noDynamicMetadata, ops2, j.2.2)
    else (.failed, ops2, j.2.2)

/-- `run_hdr_analyzer` (conversion.py lines 41-80): `true` = a measurements
file was produced. -/
def run_hdr_analyzer (w : World) : Bool × List ToolOp :=
  if ¬w.analyzerFound then (false, [])
  else (w.analyzerRunOk && w.analyzerOutExists, [ToolOp.analyzerRun])

/-- `convert_hlg_to_pq` (conversion.py lines 83-156): reads static metadata
(which may raise `ValueError`, see `probeMeta`), reads the duration and runs
the ffmpeg re-encode; `.ok true` = the PQ file exists. -/
def convert_hlg_to_pq (w : World) (st : CacheSt) :
    Except PyExc Bool × List ToolOp × CacheSt :=
  let sm := get_static_metadata w st
  match sm.1 with
  | .error e => (.error e, sm.2.1, sm.2.2)
  | .ok _ =>
    let d := miJsonInput w sm.2.2
    (.ok (w.hlg2pqRunOk && w.hlg2pqOutExists),
     sm.2.1 ++ d.2.1 ++ [ToolOp.ffmpegHlg2pq], d.2.2)

/-- Result of the branch-specific setup (conversion.py lines 271-316):
either the file fails, or processing continues with a record of whether a
measurements file is at hand and which file is the base-layer source. -/
inductive SetupRes where
  | fail
  | go (hasMeas : Bool) (bl : BlSrc)
deriving DecidableEq, Repr

/-- The `if`/`elif` chain on `hdr_type` (conversion.py lines 271-316).  The
experimental-boost handling only prints. -/
def measStage (w : World) (t : HdrFormat) (st : CacheSt) :
    Except PyExc SetupRes × List ToolOp × CacheSt :=
  match t with
  | .HDR10_WITH_MEASUREMENTS =>
    if w.hasMeasurements then (.ok (.go true .input), [], st)
    else (.ok .fail, [], st)
  | .HDR10_UNSUPPORTED =>
    if w.hasMeasurements then (.ok (.go true .input), [], st)
    else
      let a := run_hdr_analyzer w
      if a.1 then (.ok (.go true .input), a.2, st) else (.ok .fail, a.2, st)
  | .HLG =>
    let a := run_hdr_analyzer w
    if ¬a.1 then (.ok .fail, a.2, st)
    else
      let h := convert_hlg_to_pq w st
      match h.1 with
      | .error e => (.error e, a.2 ++ h.2.1, h.2.2)
      | .ok true => (.ok (.go true .pq), a.2 ++ h.2.1, h.2.2)
      | .ok false => (.ok .fail, a.2 ++ h.2.1, h.2.2)
  | .UNSUPPORTED => (.ok .fail, [], st)
  | .HDR10_PLUS => (.ok (.go false .input), [], st)

/-- The common tail of `convert_file` (conversion.py lines 318-427): static
metadata (validation only prints), trim-target selection, extra.json, RPU
generation, BL extraction, RPU injection, muxing, optional verification.
The source/artifact cleanup (lines 405-422) performs only filesystem
deletions, not tool invocations. -/
def convertTail (w : World) (hasJson hasMeas : Bool) (bl : BlSrc) (st : CacheSt) :
    Except PyExc Bool × List ToolOp :=
  let sm := get_static_metadata w st
  match sm.1 with
  | .error e => (.error e, sm.2.1)
  | .ok _meta =>
    let _trims : List ℤ :=
      if w.argTrimFromDetails ∧ w.detailsFound then
        match parse_madvr_details_for_trims w.detailsText with
        | some l => if l.isEmpty then w.argTrimTargets else l
        | none => w.argTrimTargets
      else w.argTrimTargets
    if ¬w.extraJsonWriteOk then (.ok false, sm.2.1)
    else if hasJson ∨ hasMeas then
      -- generate_rpu (conversion.py lines 208-243) runs dovi_tool
      if ¬w.doviGenerateOk then (.ok false, sm.2.1 ++ [ToolOp.doviGenerate])
      else
        let d := match bl with
          | .input => miJsonInput w sm.2.2
          | .pq => miJsonPq w sm.2.2
        let ops2 := sm.2.1 ++ [ToolOp.doviGenerate] ++ d.2.1 ++ [ToolOp.ffmpegBlExtract]
        if ¬w.ffmpegBlOk then (.ok false, ops2)
        else if ¬w.doviInjectOk then (.ok false, ops2 ++ [ToolOp.doviInject])
        else
          let ops4 := ops2 ++ [ToolOp.doviInject, ToolOp.mkvmergeMux]
          if ¬w.mkvmergeOk then (.ok false, ops4)
          else if w.mergedOutputExists then
            if w.argVerify then
              let v := verify_post_mux w hasMeas
              (if ¬v.1 then (.ok false, ops4 ++ v.2) else (.ok true, ops4 ++ v.2))
            else (.ok true, ops4)
          else (.ok false, ops4)
    else
      -- generate_rpu aborts: measurements required but absent (line 233-235)
      (.ok false, sm.2.1)

/-- Branch setup followed by the common tail, for a given (possibly
reclassified) `HdrFormat`. -/
def processAsType (w : World) (t : HdrFormat) (hasJson : Bool) (st : CacheSt) :
    Except PyExc Bool × List ToolOp :=
  let m := measStage w t st
  match m.1 with
  | .error e => (.error e, m.2.1)
  | .ok .fail => (.ok false, m.2.1)
  | .ok (.go hasMeas bl) =>
    let tl := convertTail w hasJson hasMeas bl m.2.2
    (tl.1, m.2.1 ++ tl.2)

/-- conversion.py lines 263-269: dispatch on the outcome of
`extract_hdr10plus_metadata` for an HDR10_PLUS-classified file.  The
`NO_DYNAMIC_METADATA` sentinel reclassifies the file as HDR10_UNSUPPORTED
(with `hdr10plus_json = None`) and processing continues down that branch. -/
def convertAfterExtract (w : World) (ops0 : List ToolOp) :
    ExtractOutcome × List ToolOp × CacheSt → Except PyExc Bool × List ToolOp
  | (.noDynamicMetadata, ops, st) =>
    let r := processAsType w .HDR10_UNSUPPORTED false st
    (r.1, ops0 ++ ops ++ r.2)
  | (.failed, ops, _) => (.ok false, ops0 ++ ops)
  | (.metadataFile, ops, st) =>
    let r := processAsType w .HDR10_PLUS true st
    (r.1, ops0 ++ ops ++ r.2)

/-- conversion.py lines 257-316: dispatch on the classification result.  An
exception escaping `check_hdr_format` escapes `convert_file` (there is no
enclosing `try`). -/
def convertAfterCheck (w : World) :
    Except PyExc HdrFormat × List ToolOp × CacheSt → Except PyExc Bool × List ToolOp
  | (.error e, ops, _) => (.error e, ops)
  | (.ok .HDR10_PLUS, ops, st) => convertAfterExtract w ops (extract_hdr10plus_metadata w st)
  | (.ok t, ops, st) =>
    let r := processAsType w t false st
    (r.1, ops ++ r.2)

/-- `convert_file` (conversion.py lines 246-428).  The pre-existing-output
guard (lines 251-254) is the very first step; every tool invocation the call
performs is collected in the second component. -/
def convert_file (w : World) : Except PyExc Bool × List ToolOp :=
  if w.outputExists then (.ok true, [])
  else convertAfterCheck w (check_hdr_format w cache0)

/-! ## cli.py: the batch loop -/

/-- One command-line input as the batch loop sees it (cli.py lines 159-176):
whether `os.path.isfile` holds, whether the name ends in `.DV.mkv`, and the
world in which `convert_file` would run. -/
structure FileSpec where
  isFile : Bool
  endsDV : Bool
  world : World

/-- Result of the batch loop: `exc` is the uncaught exception that aborted
it (if any), `hadFailure` the accumulated failure flag, `processed` the
number of files on which `convert_file` was actually invoked. -/
structure BatchResult where
  exc : Option PyExc
  hadFailure : Bool
  processed : ℕ
deriving DecidableEq, Repr

/-- The `for file_path in files_to_process` loop of `main` (cli.py lines
159-176).  There is no `try`/`except` around `convert_file`: an exception
aborts the loop with the remaining files unprocessed. -/
def runBatch : List FileSpec → BatchResult
  | [] => ⟨none, false, 0⟩
  | f :: rest =>
    if ¬f.isFile then runBatch rest
    else if f.endsDV then runBatch rest
    else
      match (convert_file f.world).1 with
      | .error e => ⟨some e, false, 1⟩
      | .ok ok =>
        let r := runBatch rest
        ⟨r.exc, (!ok) || r.hadFailure, r.processed + 1⟩

/-- Process exit status (cli.py lines 178-180): `sys.exit(1)` when some file
failed; an uncaught exception also terminates the interpreter with a
non-zero status. -/
def batchExitCode (r : BatchResult) : ℕ :=
  if r.exc.isSome then 1 else if r.hadFailure then 1 else 0

/-! ## Substring lemmas -/

theorem startsWithCS_iff (m s : Str) : startsWithCS m s = true ↔ ∃ b, s = m ++ b := by
  induction m generalizing s with
  | nil => simp [startsWithCS]
  | cons a p ih =>
    cases s with
    | nil => simp [startsWithCS]
    | cons b t =>
      rw [startsWithCS]
      simp only [Bool.and_eq_true, decide_eq_true_eq, ih]
      constructor
      · rintro ⟨rfl, r, rfl⟩
        exact ⟨r, rfl⟩
      · rintro ⟨r, heq⟩
        rw [List.cons_append] at heq
        injection heq with hb ht
        exact ⟨hb.symm, r, ht⟩

theorem pyIn_iff (m s : Str) : pyIn m s = true ↔ occursIn m s := by
  induction s with
  | nil =>
    rw [pyIn]
    simp only [startsWithCS_iff, occursIn]
    constructor
    · rintro ⟨b, hb⟩
      exact ⟨[], b, by simpa using hb⟩
    · rintro ⟨a, b, hb⟩
      have h3 : a = [] ∧ m = [] ∧ b = [] := by simpa [List.append_eq_nil] using hb.symm
      obtain ⟨rfl, rfl, rfl⟩ := h3
      exact ⟨[], rfl⟩
  | cons c t ih =>
    rw [pyIn]
    simp only [Bool.or_eq_true, startsWithCS_iff, ih, occursIn]
    constructor
    · rintro (⟨b, hb⟩ | ⟨a, b, hb⟩)
      · exact ⟨[], b, by simpa using hb⟩
      · exact ⟨c :: a, b, by simp [hb]⟩
    · rintro ⟨a, b, hb⟩
      cases a with
      | nil => exact Or.inl ⟨b, by simpa using hb⟩
      | cons x a' =>
        right
        rw [List.cons_append, List.cons_append] at hb
        injection hb with h1 h2
        exact ⟨a', b, h2⟩

theorem occursIn_dropWhile {m s : Str} (h : occursIn m s) (c : Char)
    (hhead : m.head? = some c) (hc : pySpace c = false) :
    occursIn m (s.dropWhile pySpace) := by
  obtain ⟨a, b, rfl⟩ := h
  induction a with
  | nil =>
    cases m with
    | nil => cases hhead
    | cons c' t =>
      have hcc : c' = c := by simpa using hhead
      subst hcc
      refine ⟨[], b, ?_⟩
      simp [List.dropWhile_cons, hc]
  | cons x a' ih =>
    by_cases hx : pySpace x = true
    · simpa [List.dropWhile_cons, hx] using ih
    · refine ⟨x :: a', b, ?_⟩
      simp [List.dropWhile_cons, hx]

theorem occursIn_reverse {m s : Str} (h : occursIn m s) :
    occursIn m.reverse s.reverse := by
  obtain ⟨a, b, rfl⟩ := h
  exact ⟨b.reverse, a.reverse, by simp⟩

theorem occursIn_pyStrip {m s : Str} (h : occursIn m s) (c d : Char)
    (h1 : m.head? = some c) (hc : pySpace c = false)
    (h2 : m.getLast? = some d) (hd : pySpace d = false) :
    occursIn m (pyStrip s) := by
  have s1 := occursIn_dropWhile h c h1 hc
  have s2 := occursIn_reverse s1
  have h2' : m.reverse.head? = some d := by rw [List.head?_reverse]; exact h2
  have s3 := occursIn_dropWhile s2 d h2' hd
  have s4 := occursIn_reverse s3
  simpa [pyStrip] using s4

/-! ## Claim C1 -/

/-- C1: for every probe string containing an HDR10+ marker (the substring
"HDR10+" or "SMPTE ST 2094 App 4"), `check_hdr_format` returns HDR10_PLUS,
regardless of which other markers (HLG, HDR10, PQ, ST 2084) also occur in
the string. -/
theorem hdr10plus_marker_classifies_hdr10plus (w : World) (st : CacheSt) (raw : Str)
    (hi : w.inform = .ok raw)
    (hm : occursIn (str "HDR10+") raw ∨ occursIn (str "SMPTE ST 2094 App 4") raw) :
    (check_hdr_format w st).1 = .ok HdrFormat.HDR10_PLUS := by
  have hcond : (pyIn (str "SMPTE ST 2094 App 4") (pyStrip raw)
      || pyIn (str "HDR10+") (pyStrip raw)) = true := by
    rcases hm with h | h
    · have ho := occursIn_pyStrip h 'H' '+' (by decide) (by decide) (by decide) (by decide)
      have hp : pyIn (str "HDR10+") (pyStrip raw) = true := (pyIn_iff _ _).mpr ho
      simp [hp]
    · have ho := occursIn_pyStrip h 'S' '4' (by decide) (by decide) (by decide) (by decide)
      have hp : pyIn (str "SMPTE ST 2094 App 4") (pyStrip raw) = true := (pyIn_iff _ _).mpr ho
      simp [hp]
  simp only [check_hdr_format, hi]
  simp [hcond]

/-- Concrete world for the C1 witness: the probe string carries an HDR10+
marker together with HLG, HDR10 and PQ markers. -/
def w1 : World := { inform := .ok (str "HLG / SMPTE ST 2094 App 4, HDR10, PQ") }

/-- C1 witness: the theorem applied at a concrete probe string in which all
other markers co-occur. -/
theorem hdr10plus_marker_classifies_hdr10plus_witness :
    (check_hdr_format w1 cache0).1 = .ok HdrFormat.HDR10_PLUS :=
  hdr10plus_marker_classifies_hdr10plus w1 cache0
    (str "HLG / SMPTE ST 2094 App 4, HDR10, PQ") rfl
    (Or.inr ⟨str "HLG / ", str ", HDR10, PQ", by decide⟩)

deriving instance DecidableEq for Except

/-! ## Claim C8 -/

/-- World in which the `mediainfo` executable is absent from PATH (an
ffprobe-only system, which `check_dependencies` in external.py accepts):
`subprocess.check_output(["mediainfo", …])` raises `FileNotFoundError`,
which the `except subprocess.CalledProcessError` clause at metadata.py line
407 does not catch.  The ffprobe fallback tier is available but is never
reached. -/
def w8 : World :=
  { inform := .fileNotFound, ffprobeAvailable := true,
    ffprobeRun := some (str "smpte2084") }

/-- C8 (code bug): `check_hdr_format` is claimed never to propagate an
exception, but when the mediainfo binary is missing the
`FileNotFoundError` escapes to the caller instead of degrading to
UNSUPPORTED. -/
theorem check_hdr_format_missing_mediainfo_raises :
    (check_hdr_format w8 cache0).1 = .error PyExc.fileNotFoundError := by decide

/-! ## Claim C5 -/

/-- C5: when the expected output path already exists, `convert_file` returns
success immediately and performs no external tool invocation (so in
particular nothing — including the mux that produces the output file — is
ever run, and the existing output is not overwritten). -/
theorem convert_file_skips_existing_output (w : World)
    (h : w.outputExists = true) :
    convert_file w = (.ok true, ([] : List ToolOp)) := by
  simp [convert_file, h]

/-- Concrete world for the C5 witness: the output exists while every probe
and tool outcome is populated, none of which is consulted. -/
def w5 : World :=
  { outputExists := true, inform := .ok (str "HDR10+"), hasMeasurements := true }

/-- C5 witness: the theorem applied at a concrete world. -/
theorem convert_file_skips_existing_output_witness :
    convert_file w5 = (.ok true, ([] : List ToolOp)) :=
  convert_file_skips_existing_output w5 rfl

/-! ## Claim C4 -/

/-- C4: a file classified HDR10_PLUS whose dynamic-metadata extraction
reports "no dynamic metadata" is reclassified in place as HDR10_UNSUPPORTED
(with no HDR10+ JSON) and processing continues down that branch — the result
of `convert_file` is exactly the result of processing the file as
HDR10_UNSUPPORTED from the measurements-location stage on. -/
theorem convert_file_reclassifies_no_dynamic (w : World)
    (h0 : w.outputExists = false)
    (h1 : (check_hdr_format w cache0).1 = .ok HdrFormat.HDR10_PLUS)
    (h2 : (extract_hdr10plus_metadata w (check_hdr_format w cache0).2.2).1 =
      ExtractOutcome.noDynamicMetadata) :
    (convert_file w).1 =
      (processAsType w HdrFormat.HDR10_UNSUPPORTED false
        (extract_hdr10plus_metadata w (check_hdr_format w cache0).2.2).2.2).1 := by
  rcases hc : check_hdr_format w cache0 with ⟨res, ops, st⟩
  rw [hc] at h1 h2
  simp only at h1
  subst h1
  rcases he : extract_hdr10plus_metadata w st with ⟨eres, eops, est⟩
  rw [he] at h2
  simp only at h2
  subst h2
  simp only [convert_file, h0, Bool.false_eq_true, if_false, hc, convertAfterCheck,
    he, convertAfterExtract]

/-- Concrete world for the C4 witness: probe string says HDR10+, the HEVC
extraction succeeds, `hdr10plus_tool` produces no metadata file, and its log
carries the no-dynamic-metadata marker; a measurements file is present. -/
def w4 : World :=
  { inform := .ok (str "HDR10+ / HDR10"), hasMeasurements := true,
    hdr10plusFileNonempty := false, hdr10plusLogExists := true,
    hdr10plusLogSaysNoDyn := true }

/-- C4 witness: the theorem applied at a concrete world. -/
theorem convert_file_reclassifies_no_dynamic_witness :
    (convert_file w4).1 =
      (processAsType w4 HdrFormat.HDR10_UNSUPPORTED false
        (extract_hdr10plus_metadata w4 (check_hdr_format w4 cache0).2.2).2.2).1 :=
  convert_file_reclassifies_no_dynamic w4 rfl (by decide) (by decide)

/-! ## Claims C2 and C10: helper lemmas -/

/-- Helper: when the probe phase does not raise, `get_static_metadata`
returns the finalized combination of probe and details values. -/
theorem get_static_metadata_ok (w : World) (st : CacheSt) (pm : PartialMeta)
    (h : probeMeta w.miJson = .ok pm) :
    (get_static_metadata w st).1 = .ok (finalizeMeta (detailsCombine w pm)) := by
  have hj : (miJsonInput w st).1 = w.miJson := by
    unfold miJsonInput
    split <;> rfl
  simp only [get_static_metadata, hj, h]

/-- Every field of `finalizeMeta q` is either exactly the documented default
or the (truthy) collected value. -/
def fieldsSourceOrDefault (q : PartialMeta) (r : StaticMeta) : Prop :=
  (r.max_dml = 1000 ∨ q.max_dml = some r.max_dml) ∧
  (r.min_dml = 5 / 1000 ∨ q.min_dml = some r.min_dml) ∧
  (r.max_cll = 1000 ∨ q.max_cll = some r.max_cll) ∧
  (r.max_fall = 400 ∨ q.max_fall = some r.max_fall)

theorem finalizeMeta_fields (q : PartialMeta) :
    fieldsSourceOrDefault q (finalizeMeta q) := by
  unfold fieldsSourceOrDefault finalizeMeta
  refine ⟨?_, ?_, ?_, ?_⟩
  · cases hq : q.max_dml with
    | none => simp
    | some v => by_cases hv : v = 0 <;> simp [hv]
  · cases hq : q.min_dml with
    | none => simp
    | some v => by_cases hv : v = 0 <;> simp [hv]
  · cases hq : q.max_cll with
    | none => simp
    | some v => by_cases hv : v = 0 <;> simp [hv]
  · cases hq : q.max_fall with
    | none => simp
    | some v => by_cases hv : v = 0 <;> simp [hv]

/-! ## Claim C2 -/

/-- World whose video track carries the malformed light-level tag
`MaxCLL = "1.2.3"`: the `([0-9.]+)` search matches the whole token and
`float("1.2.3")` raises `ValueError` inside the `try` of
`get_static_metadata`, whose `except` clause lists only `SubprocessError`,
`JSONDecodeError` and `FileNotFoundError`. -/
def w2x : World := { miJson := some (some ⟨[(str "MaxCLL", str "1.2.3")]⟩) }

/-- C2 counterexample: `get_static_metadata` is claimed total ("never
raises"), but on a probe result with a malformed numeric token it raises
`ValueError`. -/
theorem get_static_metadata_valueerror :
    (get_static_metadata w2x cache0).1 = .error PyExc.valueError := by decide

/-- C2 (amended): whenever the probe phase raises no `ValueError` (its
numeric tokens are valid float literals — in particular whenever the media
probe fails altogether), `get_static_metadata` returns a record with all
four fields populated, each being either source-derived or exactly its
fixed default (1000, 0.005, 1000, 400). -/
theorem get_static_metadata_total_or_default (w : World) (st : CacheSt)
    (pm : PartialMeta) (h : probeMeta w.miJson = .ok pm) :
    (get_static_metadata w st).1 = .ok (finalizeMeta (detailsCombine w pm)) ∧
    fieldsSourceOrDefault (detailsCombine w pm) (finalizeMeta (detailsCombine w pm)) :=
  ⟨get_static_metadata_ok w st pm h, finalizeMeta_fields (detailsCombine w pm)⟩

/-- World for the C2 witness: the media probe failed and no calibration log
exists. -/
def w2 : World := {}

/-- C2 witness: at a world where every metadata source fails, the theorem
applies with the empty collected record, and the result is exactly the
default record. -/
theorem get_static_metadata_total_or_default_witness :
    ((get_static_metadata w2 cache0).1 = .ok (finalizeMeta (detailsCombine w2 {})) ∧
      fieldsSourceOrDefault (detailsCombine w2 {}) (finalizeMeta (detailsCombine w2 {}))) ∧
    finalizeMeta (detailsCombine w2 {}) =
      { max_dml := 1000, min_dml := 5 / 1000, max_cll := 1000, max_fall := 400 } :=
  ⟨get_static_metadata_total_or_default w2 cache0 {} rfl, rfl⟩

/-! ## Claim C10 -/

/-- C10: a source-derived light-level field whose parsed value is zero (for
example a MaxCLL or MaxFALL tag of "0", which the probe phase records as 0)
is treated as absent by the truthiness test, so the final record receives
the fixed default for that field rather than the zero the source supplied. -/
theorem get_static_metadata_zero_source_defaulted (w : World) (st : CacheSt)
    (pm : PartialMeta) (h : probeMeta w.miJson = .ok pm)
    (hd : w.detailsFound = false) :
    (get_static_metadata w st).1 = .ok (finalizeMeta pm) ∧
    (pm.max_cll = some 0 → (finalizeMeta pm).max_cll = 1000) ∧
    (pm.max_fall = some 0 → (finalizeMeta pm).max_fall = 400) := by
  have hcomb : detailsCombine w pm = pm := by simp [detailsCombine, hd]
  refine ⟨?_, ?_, ?_⟩
  · have := get_static_metadata_ok w st pm h
    rwa [hcomb] at this
  · intro hz
    simp [finalizeMeta, hz]
  · intro hz
    simp [finalizeMeta, hz]

/-- World for the C10 witness: the probe reports `MaxCLL = "0"` and
`MaxFALL = "0"` (recorded as 0 by the probe phase), no details file. -/
def w10 : World :=
  { miJson := some (some ⟨[(str "MaxCLL", str "0"), (str "MaxFALL", str "0")]⟩) }

/-- C10 witness: the theorem applied at a concrete world; the collected
record holds zeros, the final record holds the defaults. -/
theorem get_static_metadata_zero_source_defaulted_witness :
    probeMeta w10.miJson = .ok { max_cll := some 0, max_fall := some 0 } ∧
    ((get_static_metadata w10 cache0).1 =
        .ok (finalizeMeta { max_cll := some 0, max_fall := some 0 }) ∧
      ((({ max_cll := some 0, max_fall := some 0 } : PartialMeta).max_cll = some 0 →
        (finalizeMeta { max_cll := some 0, max_fall := some 0 }).max_cll = 1000) ∧
       (({ max_cll := some 0, max_fall := some 0 } : PartialMeta).max_fall = some 0 →
        (finalizeMeta { max_cll := some 0, max_fall := some 0 }).max_fall = 400))) :=
  ⟨by decide,
   (get_static_metadata_zero_source_defaulted w10 cache0
      { max_cll := some 0, max_fall := some 0 } (by decide) rfl).1,
   (get_static_metadata_zero_source_defaulted w10 cache0
      { max_cll := some 0, max_fall := some 0 } (by decide) rfl).2.1,
   (get_static_metadata_zero_source_defaulted w10 cache0
      { max_cll := some 0, max_fall := some 0 } (by decide) rfl).2.2⟩

/-! ## Claim C3: sorting lemmas -/

theorem mem_insertSortedDedup (a x : ℤ) (l : List ℤ) :
    a ∈ insertSortedDedup x l ↔ a = x ∨ a ∈ l := by
  induction l with
  | nil => simp [insertSortedDedup]
  | cons y t ih =>
    rw [insertSortedDedup]
    by_cases h1 : x < y
    · simp [h1]
    · by_cases h2 : x = y
      · subst h2
        simp [h1]
      · simp [h1, h2, ih]
        tauto

theorem sorted_insertSortedDedup (x : ℤ) (l : List ℤ)
    (h : l.Sorted (· < ·)) : (insertSortedDedup x l).Sorted (· < ·) := by
  induction l with
  | nil => simp [insertSortedDedup]
  | cons y t ih =>
    rw [insertSortedDedup]
    rw [List.sorted_cons] at h
    rcases lt_trichotomy x y with hlt | heq | hgt
    · rw [if_pos hlt]
      rw [List.sorted_cons]
      refine ⟨?_, List.sorted_cons.mpr h⟩
      intro b hb
      rcases List.mem_cons.mp hb with rfl | hb'
      · exact hlt
      · exact hlt.trans (h.1 b hb')
    · rw [if_neg (by omega), if_pos heq]
      exact List.sorted_cons.mpr h
    · rw [if_neg (by omega), if_neg (by omega)]
      rw [List.sorted_cons]
      refine ⟨?_, ih h.2⟩
      intro b hb
      rcases (mem_insertSortedDedup b x t).mp hb with rfl | hb'
      · exact hgt
      · exact h.1 b hb'

theorem sorted_sortedDedup (l : List ℤ) : (sortedDedup l).Sorted (· < ·) := by
  induction l with
  | nil => simp [sortedDedup]
  | cons x t ih => exact sorted_insertSortedDedup x (sortedDedup t) ih

theorem mem_sortedDedup (a : ℤ) (l : List ℤ) :
    a ∈ sortedDedup l ↔ a ∈ l := by
  induction l with
  | nil => simp [sortedDedup]
  | cons x t ih =>
    have : sortedDedup (x :: t) = insertSortedDedup x (sortedDedup t) := rfl
    rw [this, mem_insertSortedDedup, ih]
    simp

theorem sortedDedup_length_eq_card (l : List ℤ) :
    (sortedDedup l).length = l.toFinset.card := by
  have hnd : (sortedDedup l).Nodup := (sorted_sortedDedup l).nodup
  have hfs : (sortedDedup l).toFinset = l.toFinset := by
    ext a
    simp [List.mem_toFinset, mem_sortedDedup]
  calc (sortedDedup l).length
      = (sortedDedup l).toFinset.card := (List.toFinset_card_of_nodup hnd).symm
    _ = l.toFinset.card := by rw [hfs]

/-! ## Claim C3 -/

/-- C3: for every calibration-log text, `parse_madvr_details_for_trims`
either returns a sorted, duplicate-free list of integers that contains 100,
with every element in [80, 10000] and at least two elements, or returns no
result; and it returns no result exactly when fewer than two distinct values
in [80, 10000] survive from the seed 100 plus the extracted "real display
peak nits" and "maximum target nits" values. -/
theorem parse_madvr_details_for_trims_spec (text : Str) :
    (∀ l, parse_madvr_details_for_trims text = some l →
      l.Sorted (· ≤ ·) ∧ l.Nodup ∧ (100 : ℤ) ∈ l ∧
      (∀ x ∈ l, 80 ≤ x ∧ x ≤ 10000) ∧ 2 ≤ l.length) ∧
    (parse_madvr_details_for_trims text = none ↔
      ((trimCandidates text).filter (fun t => 80 ≤ t ∧ t ≤ 10000)).toFinset.card < 2) := by
  have hlen : (trimSurvivorList text).length =
      ((trimCandidates text).filter (fun t => 80 ≤ t ∧ t ≤ 10000)).toFinset.card :=
    sortedDedup_length_eq_card _
  constructor
  · intro l hl
    unfold parse_madvr_details_for_trims at hl
    by_cases h2 : 2 ≤ (trimSurvivorList text).length
    · rw [if_pos h2] at hl
      injection hl with hl
      subst hl
      refine ⟨?_, ?_, ?_, ?_, h2⟩
      · exact (sorted_sortedDedup _).imp le_of_lt
      · exact (sorted_sortedDedup _).nodup
      · unfold trimSurvivorList
        rw [mem_sortedDedup, List.mem_filter]
        refine ⟨?_, by decide⟩
        unfold trimCandidates
        exact List.mem_append_left _ (List.mem_append_left _ (List.mem_singleton_self 100))
      · intro x hx
        unfold trimSurvivorList at hx
        rw [mem_sortedDedup, List.mem_filter] at hx
        simpa using hx.2
    · rw [if_neg h2] at hl
      cases hl
  · unfold parse_madvr_details_for_trims
    by_cases h2 : 2 ≤ (trimSurvivorList text).length
    · rw [if_pos h2]
      rw [hlen] at h2
      constructor
      · intro h
        cases h
      · intro hc
        omega
    · rw [if_neg h2]
      rw [hlen] at h2
      constructor
      · intro _
        omega
      · intro _
        rfl

theorem pyRound_natCast (n : ℕ) : pyRound (n : ℚ) = n := by
  unfold pyRound
  rw [Int.floor_natCast]
  push_cast
  rw [sub_self]
  norm_num

/-- Concrete details text for the C3 witness. -/
def t3 : Str := str "Real display peak nits: 800\nMaximum Target Nits: 1500"

theorem trims_t3_eval : parse_madvr_details_for_trims t3 = some [100, 800, 1500] := by
  have h1 : reSearch patPeak t3 = some [str "800"] := by decide
  have h2 : reSearch patMaxTarget t3 = some [str "1500"] := by decide
  have h3 : pyExtractNumber (str "800") = some ((800 : ℕ) : ℚ) := by decide
  have h4 : pyExtractNumber (str "1500") = some ((1500 : ℕ) : ℚ) := by decide
  have hc : trimCandidates t3 = [100, 800, 1500] := by
    unfold trimCandidates
    rw [h1, h2]
    simp only [h3, h4]
    rw [if_pos (by norm_num : (0 : ℚ) < ((800 : ℕ) : ℚ))]
    rw [if_pos (by norm_num : (0 : ℚ) < ((1500 : ℕ) : ℚ))]
    rw [pyRound_natCast, pyRound_natCast]
    norm_num
  unfold parse_madvr_details_for_trims trimSurvivorList
  rw [hc]
  decide

/-- C3 witness: the theorem applied at a concrete text yielding the targets
100, 800, 1500. -/
theorem parse_madvr_details_for_trims_spec_witness :
    parse_madvr_details_for_trims t3 = some [100, 800, 1500] ∧
    (([100, 800, 1500] : List ℤ).Sorted (· ≤ ·) ∧
      ([100, 800, 1500] : List ℤ).Nodup ∧
      (100 : ℤ) ∈ ([100, 800, 1500] : List ℤ) ∧
      (∀ x ∈ ([100, 800, 1500] : List ℤ), 80 ≤ x ∧ x ≤ 10000) ∧
      2 ≤ ([100, 800, 1500] : List ℤ).length) :=
  ⟨trims_t3_eval,
   (parse_madvr_details_for_trims_spec t3).1 [100, 800, 1500] trims_t3_eval⟩

/-! ## Claim C6 -/

/-- C6: when the three frame counts — measurements-verifier log, muxed
container, extracted-RPU summary — are all available, any pairwise mismatch
makes `verify_post_mux` return failure; in particular two sources agreeing
does not rescue the result. -/
theorem verify_post_mux_frame_mismatch_fails (w : World) (m d r : ℤ)
    (hm : w.measIsFile = true)
    (h1 : parseVerifierLog w.verifierLogText = some m)
    (h2 : get_frame_count_of w.dvMiJson = some d)
    (h3 : parseRpuFrames w.doviInfoText = some r)
    (hne : m ≠ d ∨ r ≠ d ∨ r ≠ m) :
    (verify_post_mux w true).1 = false := by
  by_cases hv : w.verifierRunOk
  · by_cases he : w.doviExtractRpuOk
    · by_cases hi : w.doviInfoOk
      · simp only [verify_post_mux, verifyTail, hm, hv, he, hi, h1, h2, h3,
          Bool.and_self, if_true, not_true, if_false, ite_false, ite_true,
          Bool.not_true, Bool.false_eq_true]
        rcases hne with h | h | h <;> by_cases h5 : r = d <;> by_cases h6 : r = m <;>
          simp_all
      · simp [verify_post_mux, verifyTail, hm, hv, he, hi]
    · simp [verify_post_mux, verifyTail, hm, hv, he]
  · simp [verify_post_mux, hm, hv]

/-- Concrete world for the C6 witness: measurements log reports 240 frames,
the muxed container 241, the extracted-RPU summary 240. -/
def w6 : World :=
  { verifierLogText := str "Frame count: 240",
    doviInfoText := str "Frames: 240",
    dvMiJson := some (some ⟨[(str "FrameCount", str "241")]⟩) }

/-- C6 witness: the theorem applied at measurements = 240, container = 241,
RPU = 240 — two sources agree, yet verification fails. -/
theorem verify_post_mux_frame_mismatch_fails_witness :
    (parseVerifierLog w6.verifierLogText = some 240 ∧
     get_frame_count_of w6.dvMiJson = some 241 ∧
     parseRpuFrames w6.doviInfoText = some 240) ∧
    (verify_post_mux w6 true).1 = false :=
  ⟨⟨by decide, by decide, by decide⟩,
   verify_post_mux_frame_mismatch_fails w6 240 241 240 rfl (by decide) (by decide)
     (by decide) (Or.inl (by decide))⟩

/-! ## Claim C7 -/

/-- Concrete world for the C7 counterexample: the external verifier
invocation fails while every other tool would succeed. -/
def w7x : World := { verifierRunOk := false }

/-- C7 counterexample: the claim says every sub-check failure only
downgrades the overall result while all subsequent sub-checks still run;
but when the measurements-verifier invocation fails, `verify_post_mux`
returns failure immediately and the RPU-extraction, RPU-info, and
frame-count sub-checks are never run (their tool invocations do not appear
in the trace). -/
theorem verify_post_mux_verifier_failure_skips_checks :
    verify_post_mux w7x true = (false, [ToolOp.runVerifier]) ∧
    ToolOp.doviExtractRpu ∉ (verify_post_mux w7x true).2 ∧
    ToolOp.doviInfoRpu ∉ (verify_post_mux w7x true).2 := by
  refine ⟨by decide, by decide, by decide⟩

/-- The frame count derived from the measurements verifier, as
`verify_post_mux` computes it when the verifier tool succeeds. -/
def measFramesOf (w : World) (mp : Bool) : Option ℤ :=
  if mp && w.measIsFile then parseVerifierLog w.verifierLogText else none

/-- The tool invocations `verify_post_mux` performs when the verifier, the
RPU extraction and the RPU info calls all succeed. -/
def verifyExpectedOps (w : World) (mp : Bool) : List ToolOp :=
  (if mp && w.measIsFile then [ToolOp.runVerifier] else []) ++
  [ToolOp.doviExtractRpu, ToolOp.doviInfoRpu, ToolOp.miJsonDv] ++
  (if (w.dvMiJson).isSome then [] else [ToolOp.miJsonDv])

/-- Some pair of the available frame counts disagrees. -/
def verifyMismatch (w : World) (mp : Bool) : Prop :=
  (∃ m d, measFramesOf w mp = some m ∧ get_frame_count_of w.dvMiJson = some d ∧ m ≠ d) ∨
  (∃ r d, parseRpuFrames w.doviInfoText = some r ∧
    get_frame_count_of w.dvMiJson = some d ∧ r ≠ d) ∨
  (∃ r m, parseRpuFrames w.doviInfoText = some r ∧ measFramesOf w mp = some m ∧ r ≠ m)

/-- C7 (amended): `verify_post_mux` never raises, and — provided the three
tool invocations themselves succeed — every frame-count sub-check failure
only downgrades the result while all subsequent sub-checks still run (the
trace of performed checks does not depend on the frame counts), and the
overall result is failure exactly when some pair of available frame counts
disagrees; but a tool-invocation failure aborts the remaining checks (see
the counterexample). -/
theorem verify_post_mux_checks_run_when_tools_ok (w : World) (mp : Bool)
    (hv : w.verifierRunOk = true) (he : w.doviExtractRpuOk = true)
    (hi : w.doviInfoOk = true) :
    (verify_post_mux w mp).2 = verifyExpectedOps w mp ∧
    ((verify_post_mux w mp).1 = false ↔ verifyMismatch w mp) := by
  unfold verify_post_mux verifyTail verifyExpectedOps verifyMismatch measFramesOf
  by_cases hmp : (mp && w.measIsFile) = true
  · simp only [hmp, hv, he, hi, not_true, if_true, ite_true, Bool.not_true,
      Bool.false_eq_true, if_false]
    constructor
    · simp
    · rcases hdv : get_frame_count_of w.dvMiJson with _ | d <;>
        rcases hms : parseVerifierLog w.verifierLogText with _ | m <;>
          rcases hr : parseRpuFrames w.doviInfoText with _ | r <;>
            simp_all <;>
              try constructor <;> try omega
  · simp only [hmp, hv, he, hi, not_true, if_true, ite_true, Bool.not_true,
      Bool.false_eq_true, if_false, Bool.false_eq_true]
    constructor
    · simp [hmp]
    · rcases hdv : get_frame_count_of w.dvMiJson with _ | d <;>
        rcases hr : parseRpuFrames w.doviInfoText with _ | r <;>
          simp_all

/-- Concrete world for the C7 witness: all tools succeed and all three
frame counts agree (240). -/
def w7 : World :=
  { verifierLogText := str "Frame count: 240",
    doviInfoText := str "Frames: 240",
    dvMiJson := some (some ⟨[(str "FrameCount", str "240")]⟩) }

/-- C7 witness: the amended theorem applied at a concrete world. -/
theorem verify_post_mux_checks_run_when_tools_ok_witness :
    (verify_post_mux w7 true).2 = verifyExpectedOps w7 true ∧
    ((verify_post_mux w7 true).1 = false ↔ verifyMismatch w7 true) :=
  verify_post_mux_checks_run_when_tools_ok w7 true rfl rfl rfl

/-! ## Claim C9 -/

/-- First batch entry for the C9 counterexample: its conversion raises
`FileNotFoundError` (the mediainfo binary is missing, cf. claim C8). -/
def w9x : World := { inform := .fileNotFound }

/-- Second batch entry for the C9 counterexample: its conversion would
succeed immediately (output already present). -/
def w9ok : World := { outputExists := true }

/-- C9 counterexample: the claim says a failure while converting one file
never prevents the remaining files from being processed; but when the first
conversion fails by an uncaught exception, the batch loop (which has no
`try`/`except` at the file boundary) aborts: of the two eligible files only
one is processed.  The interpreter still exits non-zero. -/
theorem runBatch_exception_aborts_batch :
    runBatch [⟨true, false, w9x⟩, ⟨true, false, w9ok⟩] =
      { exc := some PyExc.fileNotFoundError, hadFailure := false, processed := 1 } ∧
    (([⟨true, false, w9x⟩, ⟨true, false, w9ok⟩] : List FileSpec).filter
        (fun f => f.isFile && !f.endsDV)).length = 2 ∧
    batchExitCode (runBatch [⟨true, false, w9x⟩, ⟨true, false, w9ok⟩]) = 1 :=
  ⟨by decide, by decide, by decide⟩

/-- C9 (amended): provided no per-file conversion raises an uncaught
exception, every eligible file in the batch is processed (a per-file
failure, reported as a boolean, never prevents the remaining files from
being processed), and the run exits with status zero iff every processed
file converted successfully — i.e. non-zero iff at least one file failed. -/
theorem runBatch_processes_all_without_exception (files : List FileSpec)
    (h : ∀ f ∈ files, ∃ b, (convert_file f.world).1 = .ok b) :
    (runBatch files).exc = none ∧
    (runBatch files).processed =
      (files.filter (fun f => f.isFile && !f.endsDV)).length ∧
    (batchExitCode (runBatch files) = 0 ↔
      ∀ f ∈ files, (f.isFile && !f.endsDV) = true →
        (convert_file f.world).1 = .ok true) := by
  induction files with
  | nil => simp [runBatch, batchExitCode]
  | cons f rest ih =>
    obtain ⟨hexc, hproc, hiff⟩ := ih (fun g hg => h g (List.mem_cons_of_mem f hg))
    obtain ⟨b, hb⟩ := h f (List.mem_cons_self f rest)
    have hh : ((runBatch rest).hadFailure = false ↔
        ∀ g ∈ rest, (g.isFile && !g.endsDV) = true →
          (convert_file g.world).1 = .ok true) := by
      rw [← hiff]
      simp [batchExitCode, hexc]
    by_cases h1 : f.isFile
    · by_cases h2 : f.endsDV
      · -- the file is skipped (already a .DV.mkv name)
        have hrb : runBatch (f :: rest) = runBatch rest := by
          simp [runBatch, h1, h2]
        have hfl : List.filter (fun g => g.isFile && !g.endsDV) (f :: rest) =
            List.filter (fun g => g.isFile && !g.endsDV) rest := by
          simp [List.filter_cons, h1, h2]
        rw [hrb, hfl]
        refine ⟨hexc, hproc, ?_⟩
        rw [hiff]
        constructor
        · intro hr g hg
          rcases List.mem_cons.mp hg with rfl | hg'
          · intro hcond
            exfalso
            simp [h2] at hcond
          · exact hr g hg'
        · intro hr g hg
          exact hr g (List.mem_cons_of_mem f hg)
      · -- the file is processed
        have h2' : f.endsDV = false := by simpa using h2
        have hrb : runBatch (f :: rest) =
            ⟨(runBatch rest).exc, (!b) || (runBatch rest).hadFailure,
              (runBatch rest).processed + 1⟩ := by
          simp [runBatch, h1, h2', hb]
        have hfl : List.filter (fun g => g.isFile && !g.endsDV) (f :: rest) =
            f :: List.filter (fun g => g.isFile && !g.endsDV) rest := by
          simp [List.filter_cons, h1, h2']
        rw [hrb, hfl]
        refine ⟨hexc, by simp [hproc], ?_⟩
        simp only [batchExitCode, hexc, Option.isSome_none, Bool.false_eq_true,
          if_false, ite_false]
        constructor
        · intro hz
          cases hor : (!b || (runBatch rest).hadFailure) with
          | true =>
            rw [hor] at hz
            simp at hz
          | false =>
            rcases Bool.or_eq_false_iff.mp hor with ⟨hb1, hb2⟩
            have hbt : b = true := by simpa using hb1
            intro g hg
            rcases List.mem_cons.mp hg with rfl | hg'
            · intro _
              rw [hb, hbt]
            · exact (hh.mp hb2) g hg'
        · intro hr
          have hbt : b = true := by
            have hfc := hr f (List.mem_cons_self f rest) (by simp [h1, h2'])
            rw [hb] at hfc
            injection hfc
          have hb2 : (runBatch rest).hadFailure = false :=
            hh.mpr (fun g hg => hr g (List.mem_cons_of_mem f hg))
          rw [hbt, hb2]
          simp
    · -- not a file: skipped with a warning
      have h1' : f.isFile = false := by simpa using h1
      have hrb : runBatch (f :: rest) = runBatch rest := by
        simp [runBatch, h1']
      have hfl : List.filter (fun g => g.isFile && !g.endsDV) (f :: rest) =
          List.filter (fun g => g.isFile && !g.endsDV) rest := by
        simp [List.filter_cons, h1']
      rw [hrb, hfl]
      refine ⟨hexc, hproc, ?_⟩
      rw [hiff]
      constructor
      · intro hr g hg
        rcases List.mem_cons.mp hg with rfl | hg'
        · intro hcond
          exfalso
          simp [h1'] at hcond
        · exact hr g hg'
      · intro hr g hg
        exact hr g (List.mem_cons_of_mem f hg)

/-- Concrete batch for the C9 witness: one file converts successfully, one
fails (reported as a boolean), one is skipped as already converted. -/
def batch9 : List FileSpec :=
  [⟨true, false, { outputExists := true }⟩,
   ⟨true, false, { inform := .calledProcessError }⟩,
   ⟨true, true, { outputExists := true }⟩]

/-- C9 witness: the amended theorem applied at a concrete batch. -/
theorem runBatch_processes_all_without_exception_witness :
    (runBatch batch9).exc = none ∧
    (runBatch batch9).processed =
      (batch9.filter (fun f => f.isFile && !f.endsDV)).length ∧
    (batchExitCode (runBatch batch9) = 0 ↔
      ∀ f ∈ batch9, (f.isFile && !f.endsDV) = true →
        (convert_file f.world).1 = .ok true) :=
  runBatch_processes_all_without_exception batch9 (by decide)
